import Mathlib

/-!
# Verification of the agentic-RAG chat application

A shallow embedding, in Lean 4, of the query pipeline and supporting
services of the `gemini_agentic_rag/my_project` application:

* `src/config.py` — the configuration constants;
* `src/models.py` — `GeminiEmbedder.embed_query` / `embed_documents`;
* `src/services.py` — `get_indexed_documents` (source-name extraction,
  dedup, sort) and the collection-creation block of `create_vector_store`;
* `main.py` — the per-turn query pipeline (rewrite → vector retrieval →
  web fallback → generation) and the upload / processed-documents logic.

External collaborators (the rewrite / web-search / generation agents, the
vector retriever, the embedding API, the Qdrant client) are modelled as
explicit function parameters returning `Except`-values, so that a raised
exception becomes an `Except.error`.  Python truthiness on strings and
lists ("empty is false") is translated explicitly at each use site.
-/

namespace AgenticRag

/-! ## Configuration constants (`src/config.py`) -/

def COLLECTION_NAME : String := "gemini-thinking-agent-agno"

def VECTOR_SIZE : Nat := 768

def CHUNK_SIZE : Nat := 1000

def CHUNK_OVERLAP : Nat := 200

/-! ## Embedding adapter (`src/models.py`)

`embed_query` wraps one call to the hosted embedding API.  Vector entries
are modelled as integers (their numeric values play no role in the claims,
only vector lengths do).  The API call is a parameter `api`; a raised
exception is `Except.error`. -/

/-- `GeminiEmbedder.embed_query`: returns the embedding on success and,
on any exception, reports the error and returns the empty list. -/
def embed_query (api : String → Except String (List Int)) (text : String) :
    List Int :=
  match api text with
  | .ok v => v
  | .error _ => []

/-- `GeminiEmbedder.embed_documents`: maps `embed_query` over the texts. -/
def embed_documents (api : String → Except String (List Int))
    (texts : List String) : List (List Int) :=
  texts.map (embed_query api)

/-! ## Source-name extraction (`src/services.py`, `get_indexed_documents`)

The payload of a stored record is modelled by the fields the code probes:
the top-level keys `file_name` / `url` / `source` and the same three keys
nested under `metadata`.  A missing key is `none`.  The Python string
truthiness (the final `if source_name:` guard and the `or`-chain over
`metadata`) treats the empty string like a missing value. -/

structure PayloadMetadata where
  file_name : Option String
  url : Option String
  source : Option String
deriving DecidableEq

structure Payload where
  file_name : Option String
  url : Option String
  source : Option String
  metadata : Option PayloadMetadata
deriving DecidableEq

/-- Python `a or b` on optional strings: `b` when `a` is `None` or empty. -/
def pyOrStr (a b : Option String) : Option String :=
  match a with
  | some s => if s = "" then b else some s
  | none => b

/-- The key-probing chain of `get_indexed_documents`: the top-level keys
`file_name`, `url`, `source` (tested for presence), then the same keys
nested under `metadata`, combined with Python `or`. -/
def extract_source_name (p : Payload) : Option String :=
  if p.file_name.isSome then p.file_name
  else if p.url.isSome then p.url
  else if p.source.isSome then p.source
  else
    match p.metadata with
    | some m => pyOrStr m.file_name (pyOrStr m.url m.source)
    | none => none

/-- One step of the scroll loop body: `sources.add(source_name)` guarded by
`if source_name:` (skips `None` and the empty string).  The set of already
collected names is modelled as a duplicate-free list, `List.insert` being
the "add if absent" of a set. -/
def add_point (acc : List String) (p : Payload) : List String :=
  match extract_source_name p with
  | some s => if s = "" then acc else acc.insert s
  | none => acc

/-- `get_indexed_documents`: scroll through all stored points (the
pagination concatenates the pages, so the loop visits every point in
sequence), accumulate the set of source names, and return
`sorted(list(sources))`. -/
def get_indexed_documents (points : List Payload) : List String :=
  List.insertionSort (· ≤ ·) (points.foldl add_point [])

/-! ## Collection creation (`src/services.py`, `create_vector_store`)

The Qdrant client is modelled by the set of existing collection names.
`client.create_collection` fails with an "already exists" message when the
collection is present.  The inner `try/except` of `create_vector_store`
(lines 186–197) treats exactly that failure as success and re-raises any
other failure. -/

structure QdrantState where
  collections : List String
deriving DecidableEq

/-- Python `str.lower()`, character by character. -/
def pyLower (s : String) : String := ⟨s.data.map Char.toLower⟩

/-- Substring containment, Python `needle in haystack` on strings. -/
def containsStr (s sub : String) : Prop := List.IsInfix sub.data s.data

instance (s sub : String) : Decidable (containsStr s sub) :=
  List.decidableInfix sub.data s.data

/-- `client.create_collection(collection_name=name, ...)`: raises when the
collection already exists, otherwise creates it. -/
def create_collection (s : QdrantState) (name : String) :
    Except String QdrantState :=
  if name ∈ s.collections then
    .error ("Collection " ++ name ++ " already exists!")
  else
    .ok ⟨s.collections ++ [name]⟩

/-- The `except` clause of the collection-creation block:
`if "already exists" not in str(e).lower(): raise e` — the already-exists
failure is swallowed (success, state unchanged), anything else is
re-raised. -/
def handle_create_error (s : QdrantState) (e : String) :
    Except String QdrantState :=
  if containsStr (pyLower e) "already exists" then .ok s else .error e

/-- The collection-creation block of `create_vector_store` (the
`ensure_collection` operation of the spec): create the collection and
treat an already-exists failure as success. -/
def ensure_collection (s : QdrantState) (name : String) :
    Except String QdrantState :=
  match create_collection s name with
  | .ok s2 => .ok s2
  | .error e => handle_create_error s e

/-! ## Upload handling (`main.py`, lines 91–111)

A new source (PDF name or URL) is processed only when its identifier is
not already in `st.session_state.processed_documents`, and the identifier
is appended only when extraction produced a non-empty chunk list and a
Qdrant client is connected. -/

structure Doc where
  pageContent : String
deriving DecidableEq

/-- One upload event: the membership guard
(`uploaded_file.name not in st.session_state.processed_documents`), the
processing, and the conditional append of the source identifier
(`if texts and qdrant_client`). -/
def ingest_source (processed : List String) (name : String)
    (texts : List Doc) (clientOk : Bool) : List String :=
  if name ∉ processed then
    if texts ≠ [] ∧ clientOk = true then processed ++ [name] else processed
  else processed

/-! ## The query pipeline (`main.py`, lines 116–182)

One user turn.  The four external agent calls are parameters collected in
`TurnEnv`; session-state scalars live in `SessionState`.  `TurnResult`
records the values the code computes along the way (the rewritten query,
the retrieved docs, the context before and after the web-search stage,
whether the web-search stage executed, the generation prompt, the final
chat history, and the surfaced generation error, if any). -/

inductive Role where
  | user
  | assistant
deriving DecidableEq

structure ChatMsg where
  role : Role
  content : String
deriving DecidableEq

structure TurnEnv where
  /-- `get_query_rewriter_agent().run(prompt).content`. -/
  rewriter : String → Except String String
  /-- `retriever.invoke(rewritten_query)` on the vector store held in the session. -/
  retrieve : String → List Doc
  /-- `get_web_search_agent(...).run(rewritten_query).content`. -/
  webSearch : String → Except String String
  /-- `get_rag_agent().run(full_prompt).content`. -/
  generate : String → Except String String

structure SessionState where
  force_web_search : Bool
  use_web_search : Bool
  /-- `st.session_state.exa_api_key`; the empty string means "absent". -/
  exa_api_key : String
  /-- Truthiness of `st.session_state.vector_store`. -/
  vector_store : Bool
  history : List ChatMsg
deriving DecidableEq

structure TurnResult where
  rewritten : String
  docs : List Doc
  preWebContext : String
  webAttempted : Bool
  context : String
  fullPrompt : String
  history : List ChatMsg
  generationError : Option String
deriving DecidableEq

/-- Stage 1 (lines 121–131): rewrite the query; on any exception fall back
to the original prompt unchanged. -/
def rewriteStage (env : TurnEnv) (prompt : String) : String :=
  match env.rewriter prompt with
  | .ok r => r
  | .error _ => prompt

/-- Stage 2, retrieval part (line 136): vector retrieval runs only when
force-web-search is off and a vector store is configured. -/
def searchDocs (env : TurnEnv) (st : SessionState) (rewritten : String) :
    List Doc :=
  if !st.force_web_search && st.vector_store then env.retrieve rewritten
  else []

/-- Stage 2, context part (lines 145–146): `"\n\n".join(...)` over the
retrieved page contents when `docs` is truthy, otherwise `context` keeps
its initial value `""`. -/
def contextFromDocs (docs : List Doc) : String :=
  if docs.isEmpty then "" else
    String.intercalate "\n\n" (docs.map Doc.pageContent)

/-- The stage-3 guard (line 152):
`(force_web_search or not context) and use_web_search and exa_api_key`. -/
def webGuard (st : SessionState) (context : String) : Bool :=
  (st.force_web_search || context == "") && st.use_web_search
    && st.exa_api_key != ""

/-- Stage 3 (lines 152–161): when the guard holds, run the web-search
agent; a non-empty result replaces the context, an empty result or an
exception leaves the context unchanged. -/
def webStage (env : TurnEnv) (st : SessionState)
    (rewritten preWeb : String) : String :=
  if webGuard st preWeb then
    match env.webSearch rewritten with
    | .ok w => if w == "" then preWeb else "Web Search Results:\n" ++ w
    | .error _ => preWeb
  else preWeb

/-- The generation prompt (line 167):
`f"Context: {context}\n\nQuestion: {prompt}\nRewritten: {rewritten_query}"`
when `context` is truthy, else `f"Question: {prompt}"`. -/
def buildPrompt (context prompt rewritten : String) : String :=
  if context == "" then "Question: " ++ prompt
  else
    "Context: " ++ context ++ "\n\nQuestion: " ++ prompt
      ++ "\nRewritten: " ++ rewritten

/-- The context reaching stage 4: the context from stage 2, possibly replaced by
web-search results in stage 3. -/
def turnContext (env : TurnEnv) (st : SessionState) (rewritten : String) :
    String :=
  webStage env st rewritten (contextFromDocs (searchDocs env st rewritten))

/-- The prompt sent to the generation agent on this turn. -/
def turnPrompt (env : TurnEnv) (st : SessionState)
    (prompt rewritten : String) : String :=
  buildPrompt (turnContext env st rewritten) prompt rewritten

/-- Stages 2–4 for an already rewritten query: retrieval, web fallback,
generation.  On generation success the assistant message is appended to
the history (lines 171–174); on a generation exception the history keeps
only the message of the user and the error is surfaced (line 182). -/
def runTurnWith (env : TurnEnv) (st : SessionState)
    (prompt rewritten : String) : TurnResult :=
  match env.generate (turnPrompt env st prompt rewritten) with
  | .ok resp =>
      ⟨rewritten, searchDocs env st rewritten,
        contextFromDocs (searchDocs env st rewritten),
        webGuard st (contextFromDocs (searchDocs env st rewritten)),
        turnContext env st rewritten, turnPrompt env st prompt rewritten,
        (st.history ++ [ChatMsg.mk Role.user prompt])
          ++ [ChatMsg.mk Role.assistant resp], none⟩
  | .error e =>
      ⟨rewritten, searchDocs env st rewritten,
        contextFromDocs (searchDocs env st rewritten),
        webGuard st (contextFromDocs (searchDocs env st rewritten)),
        turnContext env st rewritten, turnPrompt env st prompt rewritten,
        st.history ++ [ChatMsg.mk Role.user prompt], some e⟩

/-- One full user turn of `main` (lines 116–182). -/
def runTurn (env : TurnEnv) (st : SessionState) (prompt : String) :
    TurnResult :=
  runTurnWith env st prompt (rewriteStage env prompt)

/-! ## Helper lemmas -/

theorem runTurnWith_rewritten (env : TurnEnv) (st : SessionState)
    (prompt rewritten : String) :
    (runTurnWith env st prompt rewritten).rewritten = rewritten := by
  unfold runTurnWith
  split <;> rfl

theorem runTurnWith_docs (env : TurnEnv) (st : SessionState)
    (prompt rewritten : String) :
    (runTurnWith env st prompt rewritten).docs = searchDocs env st rewritten := by
  unfold runTurnWith
  split <;> rfl

theorem runTurnWith_webAttempted (env : TurnEnv) (st : SessionState)
    (prompt rewritten : String) :
    (runTurnWith env st prompt rewritten).webAttempted
      = webGuard st (contextFromDocs (searchDocs env st rewritten)) := by
  unfold runTurnWith
  split <;> rfl

theorem runTurnWith_context (env : TurnEnv) (st : SessionState)
    (prompt rewritten : String) :
    (runTurnWith env st prompt rewritten).context
      = turnContext env st rewritten := by
  unfold runTurnWith
  split <;> rfl

theorem runTurnWith_fullPrompt (env : TurnEnv) (st : SessionState)
    (prompt rewritten : String) :
    (runTurnWith env st prompt rewritten).fullPrompt
      = turnPrompt env st prompt rewritten := by
  unfold runTurnWith
  split <;> rfl

theorem intercalate_go_length_le (s : String) :
    ∀ (t : List String) (acc : String),
      acc.length ≤ (String.intercalate.go acc s t).length := by
  intro t
  induction t with
  | nil =>
      intro acc
      exact Nat.le_refl _
  | cons x xs ih =>
      intro acc
      have h1 : String.intercalate.go acc s (x :: xs)
          = String.intercalate.go (acc ++ s ++ x) s xs := rfl
      rw [h1]
      refine Nat.le_trans ?_ (ih (acc ++ s ++ x))
      rw [String.length_append, String.length_append]
      omega

theorem intercalate_two_ne_empty (a b : String) (t : List String) :
    String.intercalate "\n\n" (a :: b :: t) ≠ "" := by
  intro h
  have h1 : String.intercalate "\n\n" (a :: b :: t)
      = String.intercalate.go (a ++ "\n\n" ++ b) "\n\n" t := rfl
  have h2 := intercalate_go_length_le "\n\n" t (a ++ "\n\n" ++ b)
  rw [← h1, h] at h2
  rw [String.length_append, String.length_append] at h2
  have h3 : ("\n\n" : String).length = 2 := rfl
  have h4 : ("" : String).length = 0 := rfl
  omega

theorem intercalate_singleton (x : String) :
    String.intercalate "\n\n" [x] = x := rfl

theorem contextFromDocs_eq_empty_iff (docs : List Doc) :
    contextFromDocs docs = "" ↔
      docs.map Doc.pageContent = [] ∨ docs.map Doc.pageContent = [""] := by
  match docs with
  | [] => simp [contextFromDocs]
  | [d] =>
      simp [contextFromDocs, intercalate_singleton]
  | d1 :: d2 :: ds =>
      simp only [contextFromDocs, List.isEmpty_cons, List.map_cons]
      constructor
      · intro h
        exact absurd h (intercalate_two_ne_empty _ _ _)
      · intro h
        rcases h with h | h <;> simp at h

/-! ## Claim C3: generation failure persists no partial answer -/

/-- Claim C3: if the generation agent raises, no assistant entry is
appended for the turn — the history is exactly the previous history plus
the message of the user — and the error is surfaced. -/
theorem generation_failure_preserves_history (env : TurnEnv)
    (st : SessionState) (prompt e : String)
    (h : env.generate ((runTurn env st prompt).fullPrompt) = .error e) :
    (runTurn env st prompt).history
        = st.history ++ [ChatMsg.mk Role.user prompt] ∧
    (runTurn env st prompt).generationError = some e := by
  rw [runTurn, runTurnWith_fullPrompt] at h
  rw [runTurn]
  unfold runTurnWith
  rw [h]
  exact ⟨rfl, rfl⟩

/-- Witness for C3 at a concrete turn whose generation agent fails. -/
theorem generation_failure_preserves_history_witness :
    (runTurn
        ⟨fun s => .ok s, fun _ => [], fun _ => .ok "w", fun _ => .error "quota exceeded"⟩
        ⟨false, false, "", false, []⟩ "hi").history
      = ([] : List ChatMsg) ++ [ChatMsg.mk Role.user "hi"] ∧
    (runTurn
        ⟨fun s => .ok s, fun _ => [], fun _ => .ok "w", fun _ => .error "quota exceeded"⟩
        ⟨false, false, "", false, []⟩ "hi").generationError
      = some "quota exceeded" :=
  generation_failure_preserves_history
    ⟨fun s => .ok s, fun _ => [], fun _ => .ok "w", fun _ => .error "quota exceeded"⟩
    ⟨false, false, "", false, []⟩ "hi" "quota exceeded" rfl

/-! ## Claim C5: rewrite failure falls back to the original prompt -/

/-- Claim C5: if the query-rewriting agent raises, the rewritten query
equals the original prompt unchanged and the turn proceeds exactly as a
turn whose rewritten query is the original prompt (the rewriter is
consulted once, so no retry happens). -/
theorem rewrite_failure_falls_back (env : TurnEnv) (st : SessionState)
    (prompt e : String) (h : env.rewriter prompt = .error e) :
    (runTurn env st prompt).rewritten = prompt ∧
    runTurn env st prompt = runTurnWith env st prompt prompt := by
  have hr : rewriteStage env prompt = prompt := by
    unfold rewriteStage
    rw [h]
  rw [runTurn, hr]
  exact ⟨runTurnWith_rewritten env st prompt prompt, rfl⟩

/-- Witness for C5 at a concrete turn whose rewriter fails. -/
theorem rewrite_failure_falls_back_witness :
    (runTurn
        ⟨fun _ => .error "boom", fun _ => [], fun _ => .error "no", fun _ => .ok "ans"⟩
        ⟨false, false, "", false, []⟩ "q").rewritten = "q" :=
  (rewrite_failure_falls_back
    ⟨fun _ => .error "boom", fun _ => [], fun _ => .error "no", fun _ => .ok "ans"⟩
    ⟨false, false, "", false, []⟩ "q" "boom" rfl).1

/-! ## Claim C8: web fallback on empty retrieval -/

/-- Claim C8: when vector retrieval returns zero chunks, web search is
enabled and a credential is present, the fallback stage executes and, on
a successful web search returning text, the context equals
`"Web Search Results:\n"` followed by the returned text. -/
theorem web_fallback_on_empty_retrieval (env : TurnEnv)
    (st : SessionState) (prompt w : String)
    (hforce : st.force_web_search = false)
    (hvs : st.vector_store = true)
    (hret : env.retrieve (rewriteStage env prompt) = [])
    (hweb : st.use_web_search = true)
    (hkey : st.exa_api_key ≠ "")
    (hws : env.webSearch (rewriteStage env prompt) = .ok w)
    (hw : w ≠ "") :
    (runTurn env st prompt).webAttempted = true ∧
    (runTurn env st prompt).context = "Web Search Results:\n" ++ w := by
  have hd : searchDocs env st (rewriteStage env prompt) = [] := by
    unfold searchDocs
    rw [hforce, hvs]
    simpa using hret
  have hpre : contextFromDocs (searchDocs env st (rewriteStage env prompt)) = "" := by
    rw [hd]
    rfl
  have hg : webGuard st "" = true := by
    unfold webGuard
    rw [hforce, hweb]
    simp [hkey]
  constructor
  · rw [runTurn, runTurnWith_webAttempted, hpre, hg]
  · rw [runTurn, runTurnWith_context]
    unfold turnContext webStage
    rw [hpre, hg, hws]
    simp [hw]

/-- Witness for C8 at a concrete turn: empty retrieval, web search
enabled, credential present, web search returns `"W"`. -/
theorem web_fallback_on_empty_retrieval_witness :
    (runTurn ⟨fun s => .ok s, fun _ => [], fun _ => .ok "W", fun _ => .ok "a"⟩
        ⟨false, true, "k", true, []⟩ "q").webAttempted = true ∧
    (runTurn ⟨fun s => .ok s, fun _ => [], fun _ => .ok "W", fun _ => .ok "a"⟩
        ⟨false, true, "k", true, []⟩ "q").context
      = "Web Search Results:\n" ++ "W" :=
  web_fallback_on_empty_retrieval
    ⟨fun s => .ok s, fun _ => [], fun _ => .ok "W", fun _ => .ok "a"⟩
    ⟨false, true, "k", true, []⟩ "q" "W" rfl rfl rfl rfl (by decide) rfl
    (by decide)

/-! ## Claim C1: contents of the generation prompt -/

/-- Claim C1 counterexample: a turn where the rewriter succeeds with a
different query and the context is empty; the generation prompt is then
`"Question: dog?"` and the rewritten question does not appear in it. -/
theorem rewritten_absent_from_prompt_cx :
    (runTurn
        ⟨fun _ => .ok "German shepherds", fun _ => [], fun _ => .error "none",
          fun _ => .ok "ans"⟩
        ⟨false, false, "", false, []⟩ "dog?").rewritten = "German shepherds" ∧
    (runTurn
        ⟨fun _ => .ok "German shepherds", fun _ => [], fun _ => .error "none",
          fun _ => .ok "ans"⟩
        ⟨false, false, "", false, []⟩ "dog?").context = "" ∧
    ¬ containsStr
        (runTurn
          ⟨fun _ => .ok "German shepherds", fun _ => [], fun _ => .error "none",
            fun _ => .ok "ans"⟩
          ⟨false, false, "", false, []⟩ "dog?").fullPrompt
        "German shepherds" := by
  decide

/-- Claim C1 as amended: whenever the context reaching generation is
non-empty, the generation prompt contains the context, the rewritten
question and the original question; when the context is empty, the
prompt is exactly `"Question: "` followed by the original question (so
the rewritten question need not appear). -/
theorem generation_prompt_contents (env : TurnEnv) (st : SessionState)
    (prompt : String) :
    ((runTurn env st prompt).context ≠ "" →
      containsStr (runTurn env st prompt).fullPrompt
          (runTurn env st prompt).context ∧
      containsStr (runTurn env st prompt).fullPrompt
          (runTurn env st prompt).rewritten ∧
      containsStr (runTurn env st prompt).fullPrompt prompt) ∧
    ((runTurn env st prompt).context = "" →
      (runTurn env st prompt).fullPrompt = "Question: " ++ prompt) := by
  rw [runTurn, runTurnWith_context, runTurnWith_fullPrompt,
    runTurnWith_rewritten]
  unfold turnPrompt buildPrompt
  by_cases h : turnContext env st (rewriteStage env prompt) = ""
  · simp [h]
  · have hb : (turnContext env st (rewriteStage env prompt) == "") = false := by
      simp [h]
    rw [hb]
    simp only [Bool.false_eq_true, if_false]
    refine ⟨fun _ => ⟨?_, ?_, ?_⟩, fun hc => absurd hc h⟩
    · exact ⟨"Context: ".data,
        ("\n\nQuestion: " ++ prompt ++ "\nRewritten: "
          ++ rewriteStage env prompt).data,
        by simp [containsStr, String.data_append]⟩
    · exact ⟨("Context: " ++ turnContext env st (rewriteStage env prompt)
          ++ "\n\nQuestion: " ++ prompt ++ "\nRewritten: ").data, [],
        by simp [containsStr, String.data_append]⟩
    · exact ⟨("Context: " ++ turnContext env st (rewriteStage env prompt)
          ++ "\n\nQuestion: ").data,
        ("\nRewritten: " ++ rewriteStage env prompt).data,
        by simp [containsStr, String.data_append]⟩

/-- Witness for C1 as amended: one turn with non-empty context (the
rewritten query appears in the prompt) and one with empty context (the
prompt is exactly the question block). -/
theorem generation_prompt_contents_witness :
    containsStr
      (runTurn
        ⟨fun _ => .ok "rw", fun _ => [⟨"chunk"⟩], fun _ => .error "x",
          fun _ => .ok "a"⟩
        ⟨false, false, "", true, []⟩ "q").fullPrompt
      (runTurn
        ⟨fun _ => .ok "rw", fun _ => [⟨"chunk"⟩], fun _ => .error "x",
          fun _ => .ok "a"⟩
        ⟨false, false, "", true, []⟩ "q").rewritten ∧
    (runTurn
        ⟨fun _ => .ok "rw", fun _ => [], fun _ => .error "x", fun _ => .ok "a"⟩
        ⟨false, false, "", false, []⟩ "q").fullPrompt = "Question: " ++ "q" :=
  ⟨((generation_prompt_contents
      ⟨fun _ => .ok "rw", fun _ => [⟨"chunk"⟩], fun _ => .error "x",
        fun _ => .ok "a"⟩
      ⟨false, false, "", true, []⟩ "q").1 (by decide)).2.1,
    (generation_prompt_contents
      ⟨fun _ => .ok "rw", fun _ => [], fun _ => .error "x", fun _ => .ok "a"⟩
      ⟨false, false, "", false, []⟩ "q").2 (by decide)⟩

/-! ## Claim C2: the web-fallback guard -/

/-- Claim C2 counterexample: vector retrieval returns one chunk (whose
text is empty), the force flag is off, web search is enabled and a
credential is present; the claim as stated then forbids a web search,
but the code attempts one (the guard tests the accumulated context, not
the retrieval result). -/
theorem web_fallback_despite_results_cx :
    (runTurn ⟨fun _ => .ok "r", fun _ => [⟨""⟩], fun _ => .ok "W", fun _ => .ok "a"⟩
        ⟨false, true, "k", true, []⟩ "q").docs ≠ [] ∧
    (⟨false, true, "k", true, []⟩ : SessionState).force_web_search = false ∧
    (runTurn ⟨fun _ => .ok "r", fun _ => [⟨""⟩], fun _ => .ok "W", fun _ => .ok "a"⟩
        ⟨false, true, "k", true, []⟩ "q").webAttempted = true ∧
    (runTurn ⟨fun _ => .ok "r", fun _ => [⟨""⟩], fun _ => .ok "W", fun _ => .ok "a"⟩
        ⟨false, true, "k", true, []⟩ "q").context = "Web Search Results:\nW" := by
  decide

/-- Claim C2 as amended: the web-search stage executes if and only if
(the force-web-search flag is set, OR vector retrieval contributed no
text — it returned no chunks, which includes the case where it was
skipped, or it returned exactly one chunk whose text is empty) AND web
search is enabled AND a web-search credential is present. -/
theorem web_fallback_guard_iff (env : TurnEnv) (st : SessionState)
    (prompt : String) :
    (runTurn env st prompt).webAttempted = true ↔
      ((st.force_web_search = true ∨
          (runTurn env st prompt).docs.map Doc.pageContent = [] ∨
          (runTurn env st prompt).docs.map Doc.pageContent = [""]) ∧
        st.use_web_search = true ∧ st.exa_api_key ≠ "") := by
  rw [runTurn, runTurnWith_webAttempted, runTurnWith_docs]
  unfold webGuard
  simp only [Bool.and_eq_true, Bool.or_eq_true, beq_iff_eq, bne_iff_ne,
    ne_eq, contextFromDocs_eq_empty_iff]
  tauto

/-- Witness for C2 as amended, applied in the backward direction at a
concrete turn with no vector store and web search enabled. -/
theorem web_fallback_guard_iff_witness :
    (runTurn ⟨fun _ => .ok "r", fun _ => [], fun _ => .ok "W", fun _ => .ok "a"⟩
        ⟨false, true, "k", false, []⟩ "q").webAttempted = true :=
  (web_fallback_guard_iff
      ⟨fun _ => .ok "r", fun _ => [], fun _ => .ok "W", fun _ => .ok "a"⟩
      ⟨false, true, "k", false, []⟩ "q").mpr
    ⟨Or.inr (Or.inl (by decide)), rfl, by decide⟩

/-! ## Claim C6: processed-documents uniqueness -/

/-- Claim C6: starting from a duplicate-free processed-documents list,
an ingestion keeps the list duplicate-free, and ingesting the same
source twice (the first time successfully) leaves exactly one entry for
it — membership is checked before re-ingesting. -/
theorem processed_documents_unique (p : List String) (n : String)
    (t t' : List Doc) (c c' : Bool) (h : p.Nodup) :
    (ingest_source p n t c).Nodup ∧
    (t ≠ [] → c = true →
      (ingest_source (ingest_source p n t c) n t' c').count n = 1) := by
  unfold ingest_source
  by_cases hm : n ∈ p
  · rw [if_neg (not_not_intro hm), if_neg (not_not_intro hm)]
    exact ⟨h, fun _ _ => List.count_eq_one_of_mem h hm⟩
  · by_cases hs : t ≠ [] ∧ c = true
    · rw [if_pos hm, if_pos hs]
      constructor
      · rw [List.nodup_append]
        exact ⟨h, List.nodup_singleton n, by simpa using hm⟩
      · intro _ _
        have hm2 : n ∈ p ++ [n] := by simp
        rw [if_neg (not_not_intro hm2)]
        rw [List.count_append, List.count_eq_zero.mpr hm]
        simp
    · rw [if_pos hm, if_neg hs]
      exact ⟨h, fun ht hc => absurd ⟨ht, hc⟩ hs⟩

/-- Witness for C6: ingesting `"a.pdf"` twice into an empty list leaves
exactly one entry. -/
theorem processed_documents_unique_witness :
    (ingest_source (ingest_source [] "a.pdf" [⟨"x"⟩] true) "a.pdf"
        [⟨"x"⟩] true).count "a.pdf" = 1 :=
  (processed_documents_unique [] "a.pdf" [⟨"x"⟩] [⟨"x"⟩] true true
    List.nodup_nil).2 (by decide) rfl

/-! ## Claim C4: idempotent collection creation -/

theorem alreadyExists_in_lowered (name : String) :
    containsStr (pyLower ("Collection " ++ name ++ " already exists!"))
      "already exists" := by
  unfold containsStr pyLower
  have hA : "Collection ".data.map Char.toLower = "collection ".data := by
    decide
  have hB : " already exists!".data.map Char.toLower
      = (' ' :: ("already exists".data ++ ['!'])) := by decide
  refine ⟨"collection ".data ++ name.data.map Char.toLower ++ [' '], ['!'], ?_⟩
  simp [String.data_append, List.map_append, hA, hB]

/-- Claim C4: the collection-creation block is idempotent — when it
succeeds, running it again on the resulting state succeeds with the same
state and never raises (the already-exists failure is treated as
success) — and any creation failure whose message does not mention
"already exists" is re-raised unchanged. -/
theorem ensure_collection_idempotent :
    (∀ (s : QdrantState) (name : String) (s2 : QdrantState),
      ensure_collection s name = .ok s2 →
        ensure_collection s2 name = .ok s2) ∧
    (∀ (s : QdrantState) (e : String),
      ¬ containsStr (pyLower e) "already exists" →
        handle_create_error s e = .error e) := by
  constructor
  · intro s name s2 h
    unfold ensure_collection create_collection at h ⊢
    by_cases hm : name ∈ s.collections
    · rw [if_pos hm] at h
      simp only [] at h
      unfold handle_create_error at h
      rw [if_pos (alreadyExists_in_lowered name)] at h
      injection h with h2
      subst h2
      rw [if_pos hm]
      show handle_create_error s _ = .ok s
      unfold handle_create_error
      rw [if_pos (alreadyExists_in_lowered name)]
    · rw [if_neg hm] at h
      injection h with h2
      subst h2
      have hm2 : name ∈ (QdrantState.mk (s.collections ++ [name])).collections := by
        simp
      rw [if_pos hm2]
      show handle_create_error _ _ = _
      unfold handle_create_error
      rw [if_pos (alreadyExists_in_lowered name)]
  · intro s e h
    unfold handle_create_error
    rw [if_neg h]

/-- Witness for C4: creating `"c"` in an empty store succeeds, and a
second run on the resulting store still succeeds; a failure message
without "already exists" is re-raised unchanged. -/
theorem ensure_collection_idempotent_witness :
    ensure_collection ⟨["c"]⟩ "c" = .ok ⟨["c"]⟩ ∧
    handle_create_error ⟨[]⟩ "connection refused"
      = .error "connection refused" :=
  ⟨ensure_collection_idempotent.1 ⟨[]⟩ "c" ⟨["c"]⟩ rfl,
    ensure_collection_idempotent.2 ⟨[]⟩ "connection refused" (by decide)⟩

/-! ## Claim C7: listing distinct indexed sources -/

theorem add_point_nodup (acc : List String) (p : Payload)
    (h : acc.Nodup) : (add_point acc p).Nodup := by
  unfold add_point
  split
  · split
    · exact h
    · exact List.Nodup.insert h
  · exact h

theorem foldl_add_point_nodup :
    ∀ (points : List Payload) (acc : List String), acc.Nodup →
      (points.foldl add_point acc).Nodup := by
  intro points
  induction points with
  | nil =>
      intro acc h
      exact h
  | cons p ps ih =>
      intro acc h
      rw [List.foldl_cons]
      exact ih _ (add_point_nodup acc p h)

theorem add_point_mem (acc : List String) (p : Payload) (s : String)
    (h : s ∈ add_point acc p) :
    s ∈ acc ∨ (s ≠ "" ∧ extract_source_name p = some s) := by
  unfold add_point at h
  split at h
  · next s2 hx =>
      split at h
      · exact Or.inl h
      · next hne =>
          rcases List.mem_insert_iff.mp h with h2 | h2
          · subst h2
            exact Or.inr ⟨hne, hx⟩
          · exact Or.inl h2
  · exact Or.inl h

theorem foldl_add_point_mem :
    ∀ (points : List Payload) (acc : List String) (s : String),
      s ∈ points.foldl add_point acc →
      s ∈ acc ∨ (s ≠ "" ∧ ∃ p ∈ points, extract_source_name p = some s) := by
  intro points
  induction points with
  | nil =>
      intro acc s h
      exact Or.inl h
  | cons p ps ih =>
      intro acc s h
      rw [List.foldl_cons] at h
      rcases ih _ s h with h2 | h2
      · rcases add_point_mem acc p s h2 with h3 | h3
        · exact Or.inl h3
        · exact Or.inr ⟨h3.1, p, List.mem_cons_self p ps, h3.2⟩
      · refine Or.inr ⟨h2.1, ?_⟩
        obtain ⟨q, hq1, hq2⟩ := h2.2
        exact ⟨q, List.mem_cons_of_mem p hq1, hq2⟩

/-- Claim C7: the list of distinct indexed sources has no duplicate
identifiers, is sorted ascending lexicographically, and every identifier
was extracted (non-empty) from the payload of some record by the key-probing
chain of `extract_source_name`. -/
theorem get_indexed_documents_sorted_nodup (points : List Payload) :
    (get_indexed_documents points).Sorted (· ≤ ·) ∧
    (get_indexed_documents points).Nodup ∧
    ∀ s ∈ get_indexed_documents points,
      s ≠ "" ∧ ∃ p ∈ points, extract_source_name p = some s := by
  refine ⟨List.sorted_insertionSort _ _, ?_, ?_⟩
  · exact (List.perm_insertionSort _ _).symm.nodup
      (foldl_add_point_nodup points [] List.nodup_nil)
  · intro s hs
    have hs2 : s ∈ points.foldl add_point [] :=
      (List.perm_insertionSort _ _).mem_iff.mp hs
    rcases foldl_add_point_mem points [] s hs2 with h | h
    · exact absurd h (List.not_mem_nil s)
    · exact h

/-- Witness for C7 at a one-record store whose payload carries
`file_name = "a"`. -/
theorem get_indexed_documents_sorted_nodup_witness :
    ("a" : String) ≠ "" ∧
    ∃ p ∈ [(⟨some "a", none, none, none⟩ : Payload)],
      extract_source_name p = some "a" :=
  (get_indexed_documents_sorted_nodup [⟨some "a", none, none, none⟩]).2.2
    "a" (List.mem_cons_self _ _)

/-! ## Claim C10: embedding failures yield empty vectors -/

/-- Claim C10: when the embedding call fails for one text, `embed_query`
swallows the exception and returns the empty list, so `embed_documents`
returns a zero-length vector interleaved with the 768-length ones — the
fixed dimensionality expected by the vector store is silently violated. -/
theorem embed_query_error_empty (api : String → Except String (List Int))
    (t1 t2 e : String) (v : List Int)
    (h1 : api t1 = .error e) (h2 : api t2 = .ok v)
    (h3 : v.length = VECTOR_SIZE) :
    embed_query api t1 = [] ∧
    embed_documents api [t1, t2] = [[], v] ∧
    (embed_documents api [t1, t2]).map List.length = [0, VECTOR_SIZE] := by
  have hq1 : embed_query api t1 = [] := by
    unfold embed_query
    rw [h1]
  have hq2 : embed_query api t2 = v := by
    unfold embed_query
    rw [h2]
  refine ⟨hq1, ?_, ?_⟩
  · simp [embed_documents, hq1, hq2]
  · simp [embed_documents, hq1, hq2, h3]

/-- Witness for C10: an API that fails on `"bad"` and returns a
768-length vector on `"good"`. -/
theorem embed_query_error_empty_witness :
    embed_query
        (fun t => if t = "bad" then .error "boom"
          else .ok (List.replicate 768 (0 : Int))) "bad" = [] ∧
    embed_documents
        (fun t => if t = "bad" then .error "boom"
          else .ok (List.replicate 768 (0 : Int))) ["bad", "good"]
      = [[], List.replicate 768 (0 : Int)] ∧
    (embed_documents
        (fun t => if t = "bad" then .error "boom"
          else .ok (List.replicate 768 (0 : Int))) ["bad", "good"]).map
          List.length
      = [0, VECTOR_SIZE] :=
  embed_query_error_empty
    (fun t => if t = "bad" then .error "boom"
      else .ok (List.replicate 768 (0 : Int)))
    "bad" "good" "boom" (List.replicate 768 (0 : Int)) rfl rfl
    (by rw [List.length_replicate]; rfl)

end AgenticRag
